import Mathlib

/-!
Verification of the SOF module-adapter component and the platform
panic/trace registers, as a shallow embedding of
`src/audio/module_adapter/module_adapter.c` and the platform header.
Machine integers are modelled as `Nat` with an explicit `% 2 ^ 32`
wherever 32-bit overflow can occur; error returns are modelled as `Int`
values carrying the negated errno, exactly as in the C sources.
-/

/-- Standard errno value used by the adapter for invalid configurations. -/
def EINVAL : Int := 22

/-- Standard errno value: out of memory. -/
def ENOMEM : Int := 12

/-- Standard errno value: no space left (sink full). -/
def ENOSPC : Int := 28

/-- Standard errno value: no data available (source empty). -/
def ENODATA : Int := 61

/-- Modelled from the spec: the PATH_STOP sentinel a component returns to
tell the scheduler to stop the current pass without marking an error
(§ GLOSSARY; the pipeline header defining the numeric value 1 is not under
src/, the value is the one SOF uses). -/
def PPL_STATUS_PATH_STOP : Int := 1

/-- Modelled from the spec: the status code the generic component state
setter returns when the component is already in the requested state
("already set" without side effects, spec §8; the component framework is
not under src/, the value is the one SOF uses). -/
def COMP_STATUS_STATE_ALREADY_SET : Int := 1

/-! ## Platform panic / trace registers (platform header, lines 112-140) -/

/-- Software register offsets SW_REG_STATUS = 0x0 and SW_REG_ERRCODE = 0x04
(platform header lines 112-113). -/
def SW_REG_STATUS : Nat := 0x0

/-- Offset of the error-code register, distinct from the status register. -/
def SW_REG_ERRCODE : Nat := 0x04

/-- The two 32-bit software registers addressed by SW_REG_STATUS and
SW_REG_ERRCODE. -/
structure SwRegs where
  status : Nat
  errcode : Nat
  deriving DecidableEq

/-- Register read used by the platform_panic macro. -/
def sw_reg_read (r : SwRegs) (reg : Nat) : Nat :=
  if reg = SW_REG_STATUS then r.status else r.errcode

/-- Register write: the stored value is truncated to 32 bits. -/
def sw_reg_write (r : SwRegs) (reg v : Nat) : SwRegs :=
  if reg = SW_REG_STATUS then { r with status := v % 2 ^ 32 }
  else { r with errcode := v % 2 ^ 32 }

/-- platform_panic (platform header lines 127-129): keep the top two bits of
the current status and store `(0xdead000 | code) & 0x3fffffff` in the low
30 bits. -/
def platform_panic (r : SwRegs) (x : Nat) : SwRegs :=
  sw_reg_write r SW_REG_STATUS
    ((sw_reg_read r SW_REG_STATUS &&& 0xc0000000) |||
     ((0x0dead000 ||| x) &&& 0x3fffffff))

/-- platform_trace_point (platform header lines 137-140): USE_SW_REG_STATUS
is not defined, so the active branch writes the code to SW_REG_ERRCODE
only. -/
def platform_trace_point (r : SwRegs) (x : Nat) : SwRegs :=
  sw_reg_write r SW_REG_ERRCODE x

/-! ## RAW_DATA prepare sizing (module_adapter_prepare, lines 443-479) -/

/-- The buff_periods computation of module_adapter_prepare: lines 444-451
compute it from in_buff_size, and lines 464-471 repeat the identical
computation for out_buff_size, so both blocks are instances of this one
definition applied to the respective buffer size. -/
def raw_buff_periods (buff_size period_bytes : Nat) : Nat :=
  if buff_size > period_bytes then
    if buff_size % period_bytes ≠ 0 then buff_size / period_bytes + 2
    else buff_size / period_bytes + 1
  else
    if period_bytes % buff_size ≠ 0 then period_bytes / buff_size + 2
    else period_bytes / buff_size + 1

/-- deep_buff_bytes (lines 460-461): set only when in_buff_size differs from
period_bytes; mod->deep_buff_bytes was reset to 0 at line 365, so it stays
0 when the two are equal. -/
def raw_deep_buff_bytes (in_buff_size period_bytes : Nat) : Nat :=
  if in_buff_size ≠ period_bytes then
    min period_bytes in_buff_size * raw_buff_periods in_buff_size period_bytes
  else 0

/-- Size of the intermediate per-sink local buffer (line 478): buff_size =
MAX(period_bytes, out_buff_size) * buff_periods with buff_periods
recomputed from out_buff_size at lines 463-471. -/
def raw_output_buffer_size (out_buff_size period_bytes : Nat) : Nat :=
  max period_bytes out_buff_size * raw_buff_periods out_buff_size period_bytes

/-- The buff_periods formula in the words of the spec and of claim C3: with
r the ratio of the larger of the two sizes to the smaller, floor(r) + 2
when the division has a remainder and floor(r) + 1 when it is exact. -/
def spec_buff_periods (a b : Nat) : Nat :=
  if max a b % min a b ≠ 0 then max a b / min a b + 2
  else max a b / min a b + 1

/-- The deep_buff_bytes formula in the words of claim C3: unconditionally
min(period_bytes, in_buff_size) * buff_periods. -/
def spec_deep_buff_bytes (in_buff_size period_bytes : Nat) : Nat :=
  min period_bytes in_buff_size * spec_buff_periods in_buff_size period_bytes

/-! ## SINK_SOURCE / DP prepare period (module_adapter_dp_queue_prepare,
lines 211-262) -/

/-- UINT32_MAX, the initial value of the running minimum period. -/
def UINT32_MAX : Nat := 4294967295

/-- The per-sink quantities the period computation reads: the sink's
min_free_space (OBS), its frame size and its rate. -/
structure DpSink where
  min_free_space : Nat
  frame_bytes : Nat
  rate : Nat
  deriving DecidableEq

/-- sink_period (lines 243-245): 1000000 * sink_get_min_free_space /
(sink_get_frame_bytes * sink_get_rate) in C unsigned 32-bit arithmetic,
so both the product 1000000 * min_free_space and the divisor wrap
modulo 2^32. -/
def dp_sink_period (s : DpSink) : Nat :=
  (1000000 * s.min_free_space) % 2 ^ 32 / ((s.frame_bytes * s.rate) % 2 ^ 32)

/-- The loop of lines 211-251 restricted to its period computation:
period starts at UINT32_MAX and is lowered to each sink_period smaller
than the running value (lines 247-248). -/
def dp_queue_prepare_period (sinks : List DpSink) : Nat :=
  sinks.foldl
    (fun period s =>
      if period > dp_sink_period s then dp_sink_period s else period)
    UINT32_MAX

/-- Lines 259-262 of module_adapter_dp_queue_prepare: the computed minimum
is assigned to dev->period exactly when the period is still unset (zero)
after module prepare. -/
def dp_queue_prepare_set_period (dev_period : Nat) (sinks : List DpSink) : Nat :=
  if dev_period = 0 then dp_queue_prepare_period sinks else dev_period

/-- The per-sink period formula in the words of claim C4: 1e6 times the
sink's min free space over frame_bytes times rate, in integer division. -/
def spec_sink_period (s : DpSink) : Nat :=
  1000000 * s.min_free_space / (s.frame_bytes * s.rate)

/-! ## Component lifecycle, comp type, processing mode -/

/-- Component lifecycle states of the component framework (spec §3, §4.3). -/
inductive CompState
  | init
  | ready
  | suspend
  | prepare
  | paused
  | active
  deriving DecidableEq

/-- The IPC component types the adapter special-cases: HOST and DAI gateway
components versus every other (generic processing) component. -/
inductive CompType
  | host
  | dai
  | generic
  deriving DecidableEq

/-- The three module-ABI processing modes (IS_PROCESSING_MODE_*). -/
inductive ProcMode
  | audio_stream
  | raw_data
  | sink_source
  deriving DecidableEq

/-- Modelled from the spec: the generic component state setter
comp_set_state for the COMP_TRIGGER_PREPARE command (component framework,
not under src/). Per the spec (§4.3 table: prepare has precondition state
READY; §8: "two consecutive triggers of the same state return already-set
without side effects"): from PREPARE it reports
COMP_STATUS_STATE_ALREADY_SET without a state change, from READY it moves
to PREPARE and returns 0, and any other state is an illegal transition
rejected with -EINVAL. Returns (new state, return value). -/
def comp_set_state_prepare (s : CompState) : CompState × Int :=
  if s = CompState.prepare then (s, COMP_STATUS_STATE_ALREADY_SET)
  else if s = CompState.ready then (CompState.prepare, 0)
  else (s, -EINVAL)

/-! ## module_adapter_prepare (lines 308-574) -/

/-- The per-instance configuration module_adapter_prepare reads but never
writes: component type, processing mode and domain, the module's declared
max_sources/max_sinks, the numbers of attached source/sink buffers, the
module's in/out buffer sizes (md->mpd) and the period_bytes value that
audio_stream_period_bytes yields for the first sink buffer (line 372). -/
structure AdapterCfg where
  ctype : CompType
  mode : ProcMode
  domain_dp : Bool
  max_sources : Nat
  max_sinks : Nat
  num_src_bufs : Nat
  num_sink_bufs : Nat
  in_buff_size : Nat
  out_buff_size : Nat
  sink_period_bytes : Nat
  deriving DecidableEq

/-- The mutable adapter state module_adapter_prepare touches: the component
state, deep_buff_bytes, period_bytes, the computed local output buffer
size, and a ledger counting the live per-prepare allocations (the
input_buffers/output_buffers arrays, their data areas and the local sink
buffers). -/
structure AdapterSt where
  state : CompState
  deep_buff_bytes : Nat
  period_bytes : Nat
  output_buffer_size : Nat
  allocs : Nat
  deriving DecidableEq

/-- The mode dispatch of lines 322-335: SINK_SOURCE with DP domain runs
module_adapter_dp_queue_prepare (its return value is the dpr argument),
SINK_SOURCE with LL domain runs module_adapter_sink_src_prepare and
RAW_DATA/AUDIO_STREAM with LL domain run module_prepare (both modelled by
the mpr argument); every other combination yields -EINVAL. -/
def prepare_dispatch (cfg : AdapterCfg) (mpr dpr : Int) : Int :=
  if cfg.mode = ProcMode.sink_source ∧ cfg.domain_dp then dpr
  else if cfg.mode = ProcMode.sink_source ∧ ¬cfg.domain_dp then mpr
  else if (cfg.mode = ProcMode.raw_data ∨ cfg.mode = ProcMode.audio_stream) ∧
          ¬cfg.domain_dp then mpr
  else -EINVAL

/-- Lines 375-546 of module_adapter_prepare, reached with the state already
moved to PREPARE: record period_bytes, return for SINK_SOURCE mode, check
the buffer counts and the AUDIO_STREAM fan constraint, then perform the
per-prepare allocations (the ledger counts the input_buffers and
output_buffers arrays, and for RAW_DATA additionally one data area per
source, one per sink and one local comp_buffer per sink) and compute the
RAW_DATA deep-buffer sizes. Allocation failures are not modelled (the
allocator is assumed to succeed). -/
def module_adapter_prepare_body (cfg : AdapterCfg) (st : AdapterSt) :
    AdapterSt × Int :=
  if cfg.mode = ProcMode.sink_source then (st, 0)
  else if cfg.num_src_bufs = 0 ∧ cfg.num_sink_bufs = 0 then (st, -EINVAL)
  else if cfg.mode = ProcMode.audio_stream ∧ 1 < cfg.max_sources ∧
          1 < cfg.max_sinks then (st, -EINVAL)
  else
    let st1 : AdapterSt :=
      { st with allocs := st.allocs + (if 0 < cfg.max_sources then 1 else 0) +
                          (if 0 < cfg.max_sinks then 1 else 0) }
    if cfg.mode ≠ ProcMode.raw_data then (st1, 0)
    else
      ({ st1 with
          deep_buff_bytes :=
            raw_deep_buff_bytes cfg.in_buff_size cfg.sink_period_bytes,
          output_buffer_size :=
            raw_output_buffer_size cfg.out_buff_size cfg.sink_period_bytes,
          allocs := st1.allocs + cfg.num_src_bufs + 2 * cfg.num_sink_bufs },
       0)

/-- Lines 361-373: HOST/DAI components are done right after the state
change; for every other component deep_buff_bytes is reset and
period_bytes is taken from the first sink buffer before the body runs. -/
def module_adapter_prepare_rest (cfg : AdapterCfg) (st : AdapterSt) :
    AdapterSt × Int :=
  if cfg.ctype = CompType.host ∨ cfg.ctype = CompType.dai then (st, 0)
  else
    module_adapter_prepare_body cfg
      { st with deep_buff_bytes := 0, period_bytes := cfg.sink_period_bytes }

/-- module_adapter_prepare (lines 308-574): run the mode-specific prepare
(lines 322-342), return PATH_STOP if the component is already ACTIVE
(lines 348-349), run comp_set_state and return PATH_STOP on
COMP_STATUS_STATE_ALREADY_SET (lines 352-359), then the rest. Returns the
new adapter state and the return value. -/
def module_adapter_prepare (cfg : AdapterCfg) (st : AdapterSt)
    (mpr dpr : Int) : AdapterSt × Int :=
  if prepare_dispatch cfg mpr dpr ≠ 0 then (st, prepare_dispatch cfg mpr dpr)
  else if st.state = CompState.active then (st, PPL_STATUS_PATH_STOP)
  else if (comp_set_state_prepare st.state).2 < 0 then
    ({ st with state := (comp_set_state_prepare st.state).1 },
     (comp_set_state_prepare st.state).2)
  else if (comp_set_state_prepare st.state).2 = COMP_STATUS_STATE_ALREADY_SET then
    ({ st with state := (comp_set_state_prepare st.state).1 },
     PPL_STATUS_PATH_STOP)
  else
    module_adapter_prepare_rest cfg
      { st with state := (comp_set_state_prepare st.state).1 }

/-! ## module_adapter_trigger (lines 1375-1398) -/

/-- Trigger commands relevant to the adapter's trigger op. -/
inductive TrigCmd
  | start
  | release
  | stop
  | pause
  | reset
  | xrun
  deriving DecidableEq

/-- The adapter device fields module_adapter_trigger reads: component type,
state, the module's no_pause flag and whether the module installs its own
trigger op. -/
structure TrigDev where
  ctype : CompType
  state : CompState
  no_pause : Bool
  has_trigger_op : Bool
  deriving DecidableEq

/-- Which of the four mutually exclusive actions module_adapter_trigger
takes. -/
inductive TrigAction
  | endpoint_trigger (cmd : TrigCmd)
  | path_stop_no_pause
  | module_trigger_op (cmd : TrigCmd)
  | generic_set_state (cmd : TrigCmd)
  deriving DecidableEq

/-- module_adapter_trigger (lines 1375-1398): HOST/DAI delegate to the
endpoint ops; a PAUSE on a no_pause module sets the state to ACTIVE and
returns PPL_STATUS_PATH_STOP without calling the module trigger op or the
generic state change; otherwise the module's own trigger op runs when
present, else module_adapter_set_state. delegate_ret stands for the
return value of whichever delegate runs. Returns (new device, return
value, action taken). -/
def module_adapter_trigger (dev : TrigDev) (cmd : TrigCmd)
    (delegate_ret : Int) : TrigDev × Int × TrigAction :=
  if dev.ctype = CompType.host ∨ dev.ctype = CompType.dai then
    (dev, delegate_ret, TrigAction.endpoint_trigger cmd)
  else if cmd = TrigCmd.pause ∧ dev.no_pause = true then
    ({ dev with state := CompState.active }, PPL_STATUS_PATH_STOP,
     TrigAction.path_stop_no_pause)
  else if dev.has_trigger_op then
    (dev, delegate_ret, TrigAction.module_trigger_op cmd)
  else (dev, delegate_ret, TrigAction.generic_set_state cmd)

/-! ## Ring buffers, generate_zeroes and module_copy_samples
(lines 679-730) -/

/-- A comp_buffer's audio stream: the byte cells of the circular buffer,
the read and write indices, the number of available (readable) bytes and
the frame size. Free bytes are capacity minus available (spec §3
invariant). -/
structure RingBuf where
  data : List Nat
  r : Nat
  w : Nat
  avail : Nat
  frame_bytes : Nat
  deriving DecidableEq

/-- audio_stream_get_avail_bytes. -/
def audio_stream_get_avail_bytes (b : RingBuf) : Nat := b.avail

/-- audio_stream_get_avail_frames. -/
def audio_stream_get_avail_frames (b : RingBuf) : Nat :=
  b.avail / b.frame_bytes

/-- audio_stream_get_free_frames: free bytes over frame size. -/
def audio_stream_get_free_frames (b : RingBuf) : Nat :=
  (b.data.length - b.avail) / b.frame_bytes

/-- comp_update_buffer_produce: advance the write index modulo capacity and
grow the available count. -/
def comp_update_buffer_produce (b : RingBuf) (n : Nat) : RingBuf :=
  { b with w := (b.w + n) % b.data.length, avail := b.avail + n }

/-- comp_update_buffer_consume: advance the read index modulo capacity and
shrink the available count. -/
def comp_update_buffer_consume (b : RingBuf) (n : Nat) : RingBuf :=
  { b with r := (b.r + n) % b.data.length, avail := b.avail - n }

/-- Read n bytes of ring data starting at index pos, wrapping at the end. -/
def ringRead (d : List Nat) (pos n : Nat) : List Nat :=
  (List.range n).map fun k => d.getD ((pos + k) % d.length) 0

/-- Write the byte list bs into ring data starting at index pos, wrapping
at the end. -/
def ringWrite (d : List Nat) (pos : Nat) (bs : List Nat) : List Nat :=
  match bs with
  | [] => d
  | b :: rest => ringWrite (d.set (pos % d.length) b) (pos + 1) rest

/-- audio_stream_copy(src, 0, sink, 0, samples) with container-byte sample
size: copies samples * container bytes from the source read index to the
sink write index, honouring both wraps; pointers are not advanced here. -/
def audio_stream_copy (src sink : RingBuf) (samples container : Nat) :
    RingBuf :=
  { sink with
      data := ringWrite sink.data sink.w
                (ringRead src.data src.r (samples * container)) }

/-- The while loop of generate_zeroes (lines 684-690) carried out
literally: each iteration computes ptr as the wrapped write pointer and
tmp = MIN(bytes_without_wrap, copy_bytes), advances the local ptr and
decrements copy_bytes - the body contains no store to the buffer, so the
sink is returned as it came in. fuel bounds the iterations (the C loop
terminates whenever the capacity is nonzero, and then at most bytes
iterations run). -/
def generate_zeroes_loop (sink : RingBuf) (copy_bytes fuel : Nat) : RingBuf :=
  match fuel with
  | 0 => sink
  | fuel + 1 =>
    if copy_bytes = 0 then sink
    else
      let p := sink.w % sink.data.length
      let tmp := min (sink.data.length - p) copy_bytes
      generate_zeroes_loop sink (copy_bytes - tmp) fuel

/-- generate_zeroes (lines 679-692): run the loop, then produce `bytes`
into the sink (comp_update_buffer_produce at line 691). -/
def generate_zeroes (sink : RingBuf) (bytes : Nat) : RingBuf :=
  comp_update_buffer_produce (generate_zeroes_loop sink bytes bytes) bytes

/-- The module fields module_copy_samples reads: the deep-buffer warm-up
counter, period_bytes and the stream's sample container size. -/
structure ModState where
  deep_buff_bytes : Nat
  period_bytes : Nat
  sample_container_bytes : Nat
  deriving DecidableEq

/-- comp_get_copy_limits: frames copyable between the pair, the minimum of
the source's available frames and the sink's free frames. -/
def comp_get_copy_limits_frames (src sink : RingBuf) : Nat :=
  min (audio_stream_get_avail_frames src) (audio_stream_get_free_frames sink)

/-- Lines 720-729 of module_copy_samples: compute the copy limits, copy
copy_bytes / sample_container_bytes samples from source to sink and
advance both buffers by copy_bytes. -/
def module_copy_samples_copy (m : ModState) (src sink : RingBuf) :
    ModState × RingBuf × RingBuf :=
  let copy_bytes := comp_get_copy_limits_frames src sink * src.frame_bytes
  if copy_bytes = 0 then (m, src, sink)
  else
    let sink2 := audio_stream_copy src sink
      (copy_bytes / m.sample_container_bytes) m.sample_container_bytes
    (m, comp_update_buffer_consume src copy_bytes,
     comp_update_buffer_produce sink2 copy_bytes)

/-- module_copy_samples (lines 694-730): while deep_buff_bytes is nonzero
and at least the source's available bytes, generate_zeroes one
period_bytes to the sink and return without consuming input; once
available strictly exceeds deep_buff_bytes, clear the counter and copy.
With the counter already cleared, a call that produced nothing returns
early unless a full period is buffered. -/
def module_copy_samples (m : ModState) (src sink : RingBuf)
    (produced : Nat) : ModState × RingBuf × RingBuf :=
  if m.deep_buff_bytes ≠ 0 then
    if audio_stream_get_avail_bytes src ≤ m.deep_buff_bytes then
      (m, src, generate_zeroes sink m.period_bytes)
    else
      module_copy_samples_copy { m with deep_buff_bytes := 0 } src sink
  else if produced = 0 ∧ audio_stream_get_avail_bytes src < m.period_bytes then
    (m, src, sink)
  else module_copy_samples_copy m src sink

/-! ## The three copy paths of module_adapter_copy (lines 916-1250) -/

/-- Inputs of module_adapter_audio_stream_type_copy that decide its control
flow and accounting: the component type, the stream_copy_single_to_single
fast-path flag, the numbers of attached sink/source buffers, the module's
declared maxima, the return value of the delegate that runs on the chosen
path (module_process_endpoint for HOST/DAI, module_process_legacy
otherwise) and the per-buffer consumed/produced byte counts the process
call reports. The frame setup and the cache maintenance of the setup
helpers (lines 783-865) do not affect the return value or the accounting
and are not modelled. -/
structure AsCopyIn where
  ctype : CompType
  stream_copy_single_to_single : Bool
  num_sinks : Nat
  num_srcs : Nat
  max_sinks : Nat
  max_srcs : Nat
  proc_ret : Int
  proc_consumed : List Nat
  proc_produced : List Nat
  deriving DecidableEq

/-- The branch module_adapter_audio_stream_type_copy takes. -/
inductive AsPath
  | endpoint
  | one_to_one
  | invalid_sinks
  | invalid_sources
  | invalid_fan
  | processed
  deriving DecidableEq

/-- Result of module_adapter_audio_stream_type_copy: the return value, the
branch taken, whether the per-iteration input/output accounting
(input_buffers[i].size/.consumed and output_buffers[i].size) was zeroed
before returning, and the byte counts actually consumed from the source
streams and produced into the sink streams. -/
structure AsCopyOut where
  ret : Int
  path : AsPath
  input_acct_cleared : Bool
  output_acct_cleared : Bool
  stream_consumed : List Nat
  stream_produced : List Nat
  deriving DecidableEq

/-- module_adapter_audio_stream_type_copy (lines 916-1036): HOST/DAI run
module_process_endpoint and return its value (lines 926-927); the
single-to-single fast path (module_adapter_audio_stream_copy_1to1, lines
867-914) consumes/produces and returns the module_process_legacy value
unchanged (line 913); otherwise the attached buffer counts are checked
against the maxima (returning -EINVAL before any buffer setup, lines
940-956), a component with neither exactly one sink nor exactly one
source fails with -EINVAL through the out path (lines 968-971), and after
module_process_legacy a return of -ENOSPC or -ENODATA is replaced by 0
(lines 975-984) with consumption/production applied and the accounting
zeroed; any other nonzero return goes to the out path, which zeroes the
accounting and applies nothing. -/
def module_adapter_audio_stream_type_copy (x : AsCopyIn) : AsCopyOut :=
  if x.ctype = CompType.host ∨ x.ctype = CompType.dai then
    { ret := x.proc_ret, path := AsPath.endpoint,
      input_acct_cleared := false, output_acct_cleared := false,
      stream_consumed := [], stream_produced := [] }
  else if x.stream_copy_single_to_single then
    { ret := x.proc_ret, path := AsPath.one_to_one,
      input_acct_cleared := false, output_acct_cleared := false,
      stream_consumed := x.proc_consumed, stream_produced := x.proc_produced }
  else if x.max_sinks < x.num_sinks then
    { ret := -EINVAL, path := AsPath.invalid_sinks,
      input_acct_cleared := false, output_acct_cleared := false,
      stream_consumed := [], stream_produced := [] }
  else if x.max_srcs < x.num_srcs then
    { ret := -EINVAL, path := AsPath.invalid_sources,
      input_acct_cleared := false, output_acct_cleared := false,
      stream_consumed := [], stream_produced := [] }
  else if x.num_sinks ≠ 1 ∧ x.num_srcs ≠ 1 then
    { ret := -EINVAL, path := AsPath.invalid_fan,
      input_acct_cleared := true, output_acct_cleared := true,
      stream_consumed := [], stream_produced := [] }
  else if x.proc_ret ≠ 0 ∧ x.proc_ret ≠ -ENOSPC ∧ x.proc_ret ≠ -ENODATA then
    { ret := x.proc_ret, path := AsPath.processed,
      input_acct_cleared := true, output_acct_cleared := true,
      stream_consumed := [], stream_produced := [] }
  else
    { ret := 0, path := AsPath.processed,
      input_acct_cleared := true, output_acct_cleared := true,
      stream_consumed := x.proc_consumed, stream_produced := x.proc_produced }

/-- Inputs of module_adapter_raw_data_type_copy that decide its error
handling: the module_process_legacy return value and the per-buffer
consumed/produced counts it reports. -/
structure RawCopyIn where
  proc_ret : Int
  proc_consumed : List Nat
  proc_produced : List Nat
  deriving DecidableEq

/-- Result of module_adapter_raw_data_type_copy: return value, whether the
per-iteration input accounting was zeroed (with the input data bzero-ed)
and the output sizes zeroed, the per-source consumed bytes applied via
comp_update_buffer_consume and the produced bytes handed to
module_adapter_process_output. -/
structure RawCopyOut where
  ret : Int
  input_acct_cleared : Bool
  output_acct_cleared : Bool
  consumed_applied : List Nat
  produced_applied : List Nat
  deriving DecidableEq

/-- module_adapter_raw_data_type_copy (lines 1134-1226), after the source
samples were staged into the module input buffers: a process return of
-ENOSPC or -ENODATA is replaced by 0 (lines 1181-1190) and the pass
continues - the reported consumption is applied to the source buffers and
the produced data goes through module_adapter_process_output, with the
input/output accounting zeroed (lines 1192-1209, 772); any other nonzero
return takes the out path (lines 1215-1225), which zeroes the accounting
and applies nothing. -/
def module_adapter_raw_data_type_copy (x : RawCopyIn) : RawCopyOut :=
  if x.proc_ret ≠ 0 ∧ x.proc_ret ≠ -ENOSPC ∧ x.proc_ret ≠ -ENODATA then
    { ret := x.proc_ret, input_acct_cleared := true,
      output_acct_cleared := true,
      consumed_applied := [], produced_applied := [] }
  else
    { ret := 0, input_acct_cleared := true, output_acct_cleared := true,
      consumed_applied := x.proc_consumed,
      produced_applied := x.proc_produced }

/-- Result of module_adapter_sink_source_copy: whether an error was
logged, and the return value. -/
structure SsCopyOut where
  logged_error : Bool
  ret : Int
  deriving DecidableEq

/-- module_adapter_sink_source_copy (lines 1099-1132): reset the processed
byte counters, run module_process_sink_src, log an error unless the
return is 0, -ENOSPC or -ENODATA (lines 1117-1120), account the processed
bytes and return the process return value unchanged (line 1131). -/
def module_adapter_sink_source_copy (ret : Int) : SsCopyOut :=
  { logged_error :=
      decide (ret ≠ -ENOSPC) && decide (ret ≠ -ENODATA) && decide (ret ≠ 0),
    ret := ret }

/-! ## module_adapter_new (lines 38-120) -/

/-- The environment module_adapter_new runs in: whether the config
descriptor is non-NULL, whether the comp_alloc of the device and the
rzalloc of the processing_module succeed, and the return values of
module_adapter_init_data and module_init. -/
structure NewEnv where
  config_present : Bool
  dev_alloc_ok : Bool
  mod_alloc_ok : Bool
  init_data_ret : Int
  module_init_ret : Int
  deriving DecidableEq

/-- The observable outcome of a created device: its component state. -/
structure NewDev where
  state : CompState
  deriving DecidableEq

/-- Result of module_adapter_new: the device (none models a NULL return)
and the number of allocations still live when the function returns. -/
structure NewOut where
  dev : Option NewDev
  live_allocs : Nat
  deriving DecidableEq

/-- module_adapter_new (lines 38-120) with an explicit allocation ledger:
a NULL config returns NULL before any allocation (lines 49-53); a failed
comp_alloc returns NULL (lines 55-59); a failed module rzalloc frees the
device and returns NULL (lines 72-77); a failing module_adapter_init_data
or module_init takes the err path, which frees the module and the device
(lines 85-102, 116-119); on success the state is set to COMP_STATE_READY
(line 112) and the device plus module stay allocated. -/
def module_adapter_new (e : NewEnv) : NewOut :=
  if e.config_present = false then { dev := none, live_allocs := 0 }
  else if e.dev_alloc_ok = false then { dev := none, live_allocs := 0 }
  else
    let allocs := 1
    if e.mod_alloc_ok = false then { dev := none, live_allocs := allocs - 1 }
    else
      let allocs := allocs + 1
      if e.init_data_ret ≠ 0 then { dev := none, live_allocs := allocs - 2 }
      else if e.module_init_ret ≠ 0 then
        { dev := none, live_allocs := allocs - 2 }
      else { dev := some { state := CompState.ready }, live_allocs := allocs }

/-! ## module_adapter_get_set_params (lines 1252-1295) -/

/-- The fragment positions MODULE_CFG_FRAGMENT_*. -/
inductive FragPos
  | first
  | middle
  | last
  | single
  deriving DecidableEq

/-- The sof_ipc_ctrl_data fields the offset computation reads. -/
structure CtrlData where
  msg_index : Nat
  num_elems : Nat
  elems_remaining : Nat
  deriving DecidableEq

/-- module_adapter_get_set_params (lines 1252-1295), offset computation:
`static uint32_t size` is a function-local static, i.e. one global 32-bit
cell shared by every module adapter instance; it is the first argument
and the first component of the result. On a first fragment
(msg_index == 0) the static is set to num_elems + elems_remaining and the
offset equals it; otherwise the offset is the static minus
num_elems + elems_remaining in 32-bit unsigned arithmetic. Returns
(new static size, data_offset_size, fragment position). -/
def module_adapter_get_set_params (size : Nat) (c : CtrlData) :
    Nat × Nat × FragPos :=
  if c.msg_index = 0 then
    ((c.num_elems + c.elems_remaining) % 2 ^ 32,
     (c.num_elems + c.elems_remaining) % 2 ^ 32,
     if c.elems_remaining ≠ 0 then FragPos.first else FragPos.single)
  else
    (size,
     (size + 2 ^ 32 - (c.num_elems + c.elems_remaining) % 2 ^ 32) % 2 ^ 32,
     if c.elems_remaining ≠ 0 then FragPos.middle else FragPos.last)

/-- The same call as made on behalf of a particular component instance:
the devid argument identifies the component, and precisely because `size`
is a single shared static rather than per-device state, the computation
ignores it. -/
def sys_get_set_params (static_size devid : Nat) (c : CtrlData) :
    Nat × Nat × FragPos :=
  module_adapter_get_set_params static_size c

/-! ## Helper lemmas -/

/-- The generate_zeroes while loop never modifies the sink buffer: its body
only recomputes local ptr/tmp values and decrements copy_bytes. -/
theorem generate_zeroes_loop_id (sink : RingBuf) (c f : Nat) :
    generate_zeroes_loop sink c f = sink := by
  induction f generalizing c with
  | zero => rfl
  | succ n ih =>
    unfold generate_zeroes_loop
    split
    · rfl
    · exact ih _

/-- The two literal buff_periods blocks of the source agree with the
max-over-min formulation used by the spec. -/
theorem raw_eq_spec_buff_periods (a b : Nat) :
    raw_buff_periods a b = spec_buff_periods a b := by
  unfold raw_buff_periods spec_buff_periods
  rcases Nat.lt_or_ge b a with h | h
  · rw [Nat.max_eq_left h.le, Nat.min_eq_right h.le]
    simp [h]
  · rw [Nat.max_eq_right h, Nat.min_eq_left h]
    simp [Nat.not_lt.mpr h]

/-- Lowering an accumulator to a smaller value is taking the minimum. -/
theorem if_gt_eq_min (p x : Nat) : (if p > x then x else p) = min p x := by
  rw [Nat.min_def]; split <;> split <;> omega

/-- The period-minimum fold of the source equals a fold of min over the
spec's period formula whenever no sink overflows the 32-bit products. -/
theorem dp_fold_min_eq (sinks : List DpSink)
    (hov : ∀ s ∈ sinks, 1000000 * s.min_free_space < 2 ^ 32 ∧
           s.frame_bytes * s.rate < 2 ^ 32) (acc : Nat) :
    sinks.foldl
      (fun period s =>
        if period > dp_sink_period s then dp_sink_period s else period) acc =
    sinks.foldl (fun p s => min p (spec_sink_period s)) acc := by
  induction sinks generalizing acc with
  | nil => rfl
  | cons s rest ih =>
    have hs := hov s (List.mem_cons_self s rest)
    have hper : dp_sink_period s = spec_sink_period s := by
      unfold dp_sink_period spec_sink_period
      rw [Nat.mod_eq_of_lt hs.1, Nat.mod_eq_of_lt hs.2]
    simp only [List.foldl_cons]
    rw [if_gt_eq_min, hper]
    exact ih (fun t ht => hov t (List.mem_cons_of_mem s ht)) _

/-- The body of prepare never changes the component state field. -/
theorem prepare_body_state_eq (cfg : AdapterCfg) (st : AdapterSt) :
    (module_adapter_prepare_body cfg st).1.state = st.state := by
  unfold module_adapter_prepare_body
  split_ifs <;> rfl

/-- The tail of prepare after the state change keeps the state field. -/
theorem prepare_rest_state_eq (cfg : AdapterCfg) (st : AdapterSt) :
    (module_adapter_prepare_rest cfg st).1.state = st.state := by
  unfold module_adapter_prepare_rest
  split_ifs with h
  · rfl
  · rw [prepare_body_state_eq]

/-- Rewriting the state field to the value it already holds is the
identity. -/
theorem adapterSt_state_update_self (s : AdapterSt)
    (h : s.state = CompState.prepare) :
    { s with state := CompState.prepare } = s := by
  obtain ⟨s1, s2, s3, s4, s5⟩ := s
  simp only at h
  rw [h]

/-- If the mode dispatch succeeded once, it also succeeds when both
delegate results are 0 (the mode/domain combination is legal). -/
theorem prepare_dispatch_zero (cfg : AdapterCfg) (mpr dpr : Int)
    (h : prepare_dispatch cfg mpr dpr = 0) : prepare_dispatch cfg 0 0 = 0 := by
  unfold prepare_dispatch at h ⊢
  split_ifs at h ⊢ <;> first | rfl | exact absurd h (by decide)

/-- A prepare call that returns 0 leaves the component in the PREPARE
state. -/
theorem prepare_ret_zero_state (cfg : AdapterCfg) (st : AdapterSt)
    (mpr dpr : Int) (h : (module_adapter_prepare cfg st mpr dpr).2 = 0) :
    (module_adapter_prepare cfg st mpr dpr).1.state = CompState.prepare := by
  by_cases hd : prepare_dispatch cfg mpr dpr ≠ 0
  · rw [module_adapter_prepare, if_pos hd] at h
    exact absurd h hd
  · rw [module_adapter_prepare, if_neg hd] at h ⊢
    cases hs : st.state <;>
      simp_all [comp_set_state_prepare, prepare_rest_state_eq,
        PPL_STATUS_PATH_STOP, COMP_STATUS_STATE_ALREADY_SET, EINVAL]

/-! ## Claim theorems -/

/-- C1: evaluation of the deep-buffering warm-up tick at a concrete
failing input. With deep_buff_bytes = 8 and only 4 bytes available on the
source, module_copy_samples takes the generate_zeroes branch: the module
state and the source buffer are untouched, the sink write pointer and
available count advance by exactly period_bytes = 4 - but the 4 emitted
bytes are the sink's stale contents 7,7,7,7, not zeros, because the
generate_zeroes loop contains no store. The claim (and generate_zeroes'
own doc comment) require those bytes to be zero-valued. -/
theorem C1_generate_zeroes_not_zeroed :
    module_copy_samples ⟨8, 4, 2⟩ ⟨[9, 9, 9, 9, 9, 9, 9, 9], 0, 4, 4, 2⟩
        ⟨[7, 7, 7, 7, 7, 7, 7, 7], 0, 0, 0, 2⟩ 0 =
      (⟨8, 4, 2⟩, ⟨[9, 9, 9, 9, 9, 9, 9, 9], 0, 4, 4, 2⟩,
       ⟨[7, 7, 7, 7, 7, 7, 7, 7], 0, 4, 4, 2⟩)
    ∧ ringRead ([7, 7, 7, 7, 7, 7, 7, 7] : List Nat) 0 4 ≠
        List.replicate 4 0 := by
  decide

/-- C2 counterexample: in SINK_SOURCE mode a process return of -ENOSPC is
not turned into success - module_adapter_sink_source_copy merely skips
the error log and returns -ENOSPC itself, refuting "for every processing
mode ... returns success (0)". -/
theorem C2_counterexample_sink_source :
    module_adapter_sink_source_copy (-ENOSPC) =
      { logged_error := false, ret := -ENOSPC }
    ∧ (-ENOSPC : Int) ≠ 0 := by
  decide

/-- C2 (amended): a process return of -ENOSPC or -ENODATA is treated as
non-fatal with the accounting cleared and 0 returned on the AUDIO_STREAM
multi-buffer path and on the RAW_DATA path; the SINK_SOURCE path only
suppresses the error log and returns the value unchanged, and the
AUDIO_STREAM single-to-single fast path also returns it unchanged. -/
theorem C2_nonfatal_amended (e : Int) (he : e = -ENOSPC ∨ e = -ENODATA) :
    (∀ x : AsCopyIn, x.ctype = CompType.generic →
       x.stream_copy_single_to_single = false →
       x.num_sinks ≤ x.max_sinks → x.num_srcs ≤ x.max_srcs →
       (x.num_sinks = 1 ∨ x.num_srcs = 1) → x.proc_ret = e →
       module_adapter_audio_stream_type_copy x =
         { ret := 0, path := AsPath.processed, input_acct_cleared := true,
           output_acct_cleared := true, stream_consumed := x.proc_consumed,
           stream_produced := x.proc_produced })
    ∧ (∀ y : RawCopyIn, y.proc_ret = e →
       module_adapter_raw_data_type_copy y =
         { ret := 0, input_acct_cleared := true, output_acct_cleared := true,
           consumed_applied := y.proc_consumed,
           produced_applied := y.proc_produced })
    ∧ module_adapter_sink_source_copy e = { logged_error := false, ret := e }
    ∧ (∀ x : AsCopyIn, x.ctype = CompType.generic →
       x.stream_copy_single_to_single = true → x.proc_ret = e →
       (module_adapter_audio_stream_type_copy x).ret = e) := by
  refine ⟨?_, ?_, ?_, ?_⟩
  · intro x h1 h2 h3 h4 h5 h6
    unfold module_adapter_audio_stream_type_copy
    rcases he with he | he <;> subst he <;> split_ifs <;>
      simp_all [ENOSPC, ENODATA] <;> omega
  · intro y h1
    unfold module_adapter_raw_data_type_copy
    rcases he with he | he <;> subst he <;> split_ifs <;>
      simp_all [ENOSPC, ENODATA]
  · unfold module_adapter_sink_source_copy
    rcases he with he | he <;> subst he <;> simp [ENOSPC, ENODATA]
  · intro x h1 h2 h3
    unfold module_adapter_audio_stream_type_copy
    split_ifs <;> simp_all

/-- C2 witness: the amended behaviour at concrete inputs with e = -ENOSPC:
the multi-buffer AUDIO_STREAM path and the RAW_DATA path return 0 with
the accounting cleared, SINK_SOURCE returns -ENOSPC unlogged, and the
single-to-single path returns -ENOSPC. -/
theorem C2_amended_witness :
    module_adapter_audio_stream_type_copy
        ⟨CompType.generic, false, 1, 2, 1, 2, -ENOSPC, [3], [4]⟩ =
      { ret := 0, path := AsPath.processed, input_acct_cleared := true,
        output_acct_cleared := true, stream_consumed := [3],
        stream_produced := [4] }
    ∧ module_adapter_raw_data_type_copy ⟨-ENOSPC, [5], [6]⟩ =
      { ret := 0, input_acct_cleared := true, output_acct_cleared := true,
        consumed_applied := [5], produced_applied := [6] }
    ∧ module_adapter_sink_source_copy (-ENOSPC) =
      { logged_error := false, ret := -ENOSPC }
    ∧ (module_adapter_audio_stream_type_copy
        ⟨CompType.generic, true, 1, 1, 1, 1, -ENOSPC, [3], [4]⟩).ret =
      -ENOSPC :=
  have h := C2_nonfatal_amended (-ENOSPC) (Or.inl rfl)
  ⟨h.1 ⟨CompType.generic, false, 1, 2, 1, 2, -ENOSPC, [3], [4]⟩ rfl rfl
      (by decide) (by decide) (Or.inl rfl) rfl,
   h.2.1 ⟨-ENOSPC, [5], [6]⟩ rfl,
   h.2.2.1,
   h.2.2.2 ⟨CompType.generic, true, 1, 1, 1, 1, -ENOSPC, [3], [4]⟩ rfl rfl rfl⟩

/-- C3 counterexample: at in_buff_size = period_bytes = 4 the code leaves
deep_buff_bytes at 0 (the guard at line 460 skips the assignment), while
the claim's unconditional formula demands min(4,4) * buff_periods = 8. -/
theorem C3_counterexample_equal_sizes :
    raw_deep_buff_bytes 4 4 = 0 ∧ spec_deep_buff_bytes 4 4 = 8 ∧
    raw_deep_buff_bytes 4 4 ≠ spec_deep_buff_bytes 4 4 := by
  decide

/-- C3 (amended): for positive sizes, buff_periods matches the spec's
formula (floor of the larger over the smaller, plus 2 with a remainder
and plus 1 without); deep_buff_bytes is min(period_bytes, in_buff_size) *
buff_periods when in_buff_size differs from period_bytes and 0 when they
are equal; and the per-sink local buffer size is max(period_bytes,
out_buff_size) * buff_periods recomputed from out_buff_size. -/
theorem C3_raw_prepare_sizing (ib pb ob : Nat) (hib : 0 < ib) (hpb : 0 < pb)
    (hob : 0 < ob) :
    raw_buff_periods ib pb = spec_buff_periods ib pb
    ∧ raw_deep_buff_bytes ib pb =
        (if ib = pb then 0 else min pb ib * spec_buff_periods ib pb)
    ∧ raw_output_buffer_size ob pb = max pb ob * spec_buff_periods ob pb := by
  refine ⟨raw_eq_spec_buff_periods ib pb, ?_, ?_⟩
  · unfold raw_deep_buff_bytes
    rcases eq_or_ne ib pb with h | h
    · simp [h]
    · simp [h, raw_eq_spec_buff_periods]
  · unfold raw_output_buffer_size
    rw [raw_eq_spec_buff_periods]

/-- C3 witness: the amended sizing at in_buff_size = 12, period_bytes = 8,
out_buff_size = 20. -/
theorem C3_sizing_witness :
    raw_buff_periods 12 8 = spec_buff_periods 12 8
    ∧ raw_deep_buff_bytes 12 8 =
        (if 12 = 8 then 0 else min 8 12 * spec_buff_periods 12 8)
    ∧ raw_output_buffer_size 20 8 = max 8 20 * spec_buff_periods 20 8 :=
  C3_raw_prepare_sizing 12 8 20 (by decide) (by decide) (by decide)

/-- C4: when no sink overflows the 32-bit products, the DP prepare
computes for each sink the period 1e6 * min_free_space / (frame_bytes *
rate) in integer division, takes the minimum over all sinks (starting
from UINT32_MAX), and stores it as the device period exactly when the
device period is still zero after module prepare; a nonzero period is
kept unchanged. -/
theorem C4_dp_period (dev_period : Nat) (sinks : List DpSink)
    (hov : ∀ s ∈ sinks, 1000000 * s.min_free_space < 2 ^ 32 ∧
           s.frame_bytes * s.rate < 2 ^ 32) :
    dp_queue_prepare_set_period dev_period sinks =
      if dev_period = 0 then
        sinks.foldl (fun p s => min p (spec_sink_period s)) UINT32_MAX
      else dev_period := by
  unfold dp_queue_prepare_set_period dp_queue_prepare_period
  split
  · exact dp_fold_min_eq sinks hov UINT32_MAX
  · rfl

/-- C4 witness: one sink with min_free_space = 96 bytes, 8-byte frames at
48 kHz (well below the overflow bound) on a device whose period is still
zero. -/
theorem C4_dp_period_witness :
    dp_queue_prepare_set_period 0 [⟨96, 8, 48⟩] =
      if (0 : Nat) = 0 then
        [(⟨96, 8, 48⟩ : DpSink)].foldl
          (fun p s => min p (spec_sink_period s)) UINT32_MAX
      else 0 :=
  C4_dp_period 0 [⟨96, 8, 48⟩] (by decide)

/-- C5: for a non-HOST, non-DAI adapter whose module sets no_pause, a
PAUSE trigger sets the component state to ACTIVE and returns the
PPL_STATUS_PATH_STOP sentinel, taking neither the module trigger op nor
the generic state-change path. -/
theorem C5_no_pause_path_stop (dev : TrigDev) (dr : Int)
    (h1 : dev.ctype ≠ CompType.host) (h2 : dev.ctype ≠ CompType.dai)
    (h3 : dev.no_pause = true) :
    module_adapter_trigger dev TrigCmd.pause dr =
      ({ dev with state := CompState.active }, PPL_STATUS_PATH_STOP,
       TrigAction.path_stop_no_pause) := by
  unfold module_adapter_trigger
  simp [h1, h2, h3]

/-- C5 witness: a generic no_pause module in ACTIVE state receiving PAUSE
stays ACTIVE and the trigger returns PATH_STOP. -/
theorem C5_no_pause_witness :
    module_adapter_trigger ⟨CompType.generic, CompState.active, true, false⟩
        TrigCmd.pause 7 =
      (⟨CompType.generic, CompState.active, true, false⟩,
       PPL_STATUS_PATH_STOP, TrigAction.path_stop_no_pause) :=
  C5_no_pause_path_stop ⟨CompType.generic, CompState.active, true, false⟩ 7
    (by decide) (by decide) rfl

/-- C6: after a first module_adapter_prepare that returned success, a
second prepare with no intervening state change returns the PATH_STOP
sentinel and leaves the adapter state - including the allocation ledger,
deep_buff_bytes and the buffer sizes - exactly as the first call left it;
and a prepare on an already-ACTIVE component returns PATH_STOP
immediately with no change at all. -/
theorem C6_prepare_idempotent (cfg : AdapterCfg) (st : AdapterSt)
    (mpr dpr : Int)
    (hfirst : (module_adapter_prepare cfg st mpr dpr).2 = 0) :
    module_adapter_prepare cfg (module_adapter_prepare cfg st mpr dpr).1 0 0 =
      ((module_adapter_prepare cfg st mpr dpr).1, PPL_STATUS_PATH_STOP)
    ∧ ∀ st2 : AdapterSt, st2.state = CompState.active →
        module_adapter_prepare cfg st2 0 0 = (st2, PPL_STATUS_PATH_STOP) := by
  have hdisp : prepare_dispatch cfg mpr dpr = 0 := by
    by_contra hne
    rw [module_adapter_prepare, if_pos hne] at hfirst
    exact hne hfirst
  have hdisp0 : prepare_dispatch cfg 0 0 = 0 :=
    prepare_dispatch_zero cfg mpr dpr hdisp
  constructor
  · set st1 := (module_adapter_prepare cfg st mpr dpr).1 with hst1def
    have hst1 : st1.state = CompState.prepare :=
      prepare_ret_zero_state cfg st mpr dpr hfirst
    have hcss : comp_set_state_prepare st1.state =
        (CompState.prepare, COMP_STATUS_STATE_ALREADY_SET) := by
      rw [hst1]; decide
    rw [module_adapter_prepare, if_neg (by simp [hdisp0]),
        if_neg (by rw [hst1]; decide), hcss]
    rw [if_neg (by decide), if_pos rfl]
    exact congrArg (fun s => (s, PPL_STATUS_PATH_STOP))
      (adapterSt_state_update_self st1 hst1)
  · intro st2 h2
    rw [module_adapter_prepare, if_neg (by simp [hdisp0]), if_pos h2]

/-- C6 witness: a generic LL AUDIO_STREAM component prepared once from
READY; the second prepare returns PATH_STOP with the state untouched. -/
theorem C6_idempotent_witness :
    module_adapter_prepare
        ⟨CompType.generic, ProcMode.audio_stream, false, 1, 1, 1, 1, 16, 16, 16⟩
        (module_adapter_prepare
          ⟨CompType.generic, ProcMode.audio_stream, false, 1, 1, 1, 1, 16, 16, 16⟩
          ⟨CompState.ready, 0, 0, 0, 0⟩ 0 0).1 0 0 =
      ((module_adapter_prepare
          ⟨CompType.generic, ProcMode.audio_stream, false, 1, 1, 1, 1, 16, 16, 16⟩
          ⟨CompState.ready, 0, 0, 0, 0⟩ 0 0).1, PPL_STATUS_PATH_STOP) :=
  (C6_prepare_idempotent
    ⟨CompType.generic, ProcMode.audio_stream, false, 1, 1, 1, 1, 16, 16, 16⟩
    ⟨CompState.ready, 0, 0, 0, 0⟩ 0 0 (by decide)).1

/-- C7: an AUDIO_STREAM module may be multi-buffer on at most one side:
prepare on a generic READY component whose module declares both
max_sources > 1 and max_sinks > 1 fails with -EINVAL, and the
AUDIO_STREAM copy of a generic non-fast-path component with more than
one attached source buffer and more than one attached sink buffer
returns -EINVAL. -/
theorem C7_single_side_multi (cfg : AdapterCfg) (st : AdapterSt)
    (hmode : cfg.mode = ProcMode.audio_stream)
    (hms : 1 < cfg.max_sources) (hmk : 1 < cfg.max_sinks)
    (hct : cfg.ctype = CompType.generic)
    (hst : st.state = CompState.ready) :
    (module_adapter_prepare cfg st 0 0).2 = -EINVAL
    ∧ ∀ x : AsCopyIn, x.ctype = CompType.generic →
        x.stream_copy_single_to_single = false →
        1 < x.num_srcs → 1 < x.num_sinks →
        (module_adapter_audio_stream_type_copy x).ret = -EINVAL := by
  constructor
  · have hcss : comp_set_state_prepare st.state = (CompState.prepare, 0) := by
      rw [hst]; decide
    by_cases hdp : cfg.domain_dp
    · have hd : prepare_dispatch cfg 0 0 = -EINVAL := by
        unfold prepare_dispatch; simp [hmode, hdp]
      simp [module_adapter_prepare, hd, EINVAL]
    · have hd : prepare_dispatch cfg 0 0 = 0 := by
        unfold prepare_dispatch; simp [hmode, hdp]
      simp only [module_adapter_prepare, hd, hcss, hst,
        module_adapter_prepare_rest, module_adapter_prepare_body, hct, hmode]
      norm_num [PPL_STATUS_PATH_STOP, COMP_STATUS_STATE_ALREADY_SET]
      split_ifs <;> simp_all
  · intro x hx1 hx2 hx3 hx4
    unfold module_adapter_audio_stream_type_copy
    split_ifs <;> simp_all <;> omega

/-- C7 witness: prepare of a generic LL AUDIO_STREAM component with
max_sources = max_sinks = 2 fails with -EINVAL, and so does the copy of a
component with two attached source and two attached sink buffers. -/
theorem C7_witness :
    (module_adapter_prepare
        ⟨CompType.generic, ProcMode.audio_stream, false, 2, 2, 1, 1, 16, 16, 16⟩
        ⟨CompState.ready, 0, 0, 0, 0⟩ 0 0).2 = -EINVAL
    ∧ (module_adapter_audio_stream_type_copy
        ⟨CompType.generic, false, 2, 2, 4, 4, 0, [], []⟩).ret = -EINVAL :=
  have h := C7_single_side_multi
    ⟨CompType.generic, ProcMode.audio_stream, false, 2, 2, 1, 1, 16, 16, 16⟩
    ⟨CompState.ready, 0, 0, 0, 0⟩ rfl (by decide) (by decide) rfl rfl
  ⟨h.1, h.2 ⟨CompType.generic, false, 2, 2, 4, 4, 0, [], []⟩ rfl rfl
    (by decide) (by decide)⟩

/-- C8 counterexample: for code = 0x80000000 the value platform_panic
stores has a panic-code field of 0x0DEAD000 (the top bits are masked off
by the 0x3fffffff mask), not 0x0DEAD000 | 0x80000000 = 0x8DEAD000, so the
claim fails for 32-bit codes with the top two bits set. -/
theorem C8_counterexample_high_code :
    ¬ ((platform_panic ⟨0, 0⟩ 0x80000000).status &&& 0x3fffffff =
       0x0dead000 ||| 0x80000000) := by
  decide

/-- C8 (amended): for every code below 2^30, platform_panic writes to
SW_REG_STATUS a value whose low-30-bit panic-code field is exactly
0x0DEAD000 | code while leaving SW_REG_ERRCODE alone, and
platform_trace_point writes the code to the separate SW_REG_ERRCODE
register while leaving the status register alone. -/
theorem C8_panic_field (r : SwRegs) (code : Nat) (hc : code < 2 ^ 30) :
    (platform_panic r code).status &&& 0x3fffffff = 0x0dead000 ||| code
    ∧ (platform_panic r code).errcode = r.errcode
    ∧ (platform_trace_point r code).errcode = code
    ∧ (platform_trace_point r code).status = r.status := by
  have hm : (0x3fffffff : Nat) = 2 ^ 30 - 1 := by norm_num
  have hd : (0x0dead000 ||| code) < 2 ^ 30 :=
    Nat.or_lt_two_pow (by norm_num) hc
  have hb : (0x0dead000 ||| code) &&& 0x3fffffff = 0x0dead000 ||| code := by
    rw [hm]; exact Nat.and_pow_two_sub_one_of_lt_two_pow hd
  have hv2 : (r.status &&& 0xc0000000) |||
      ((0x0dead000 ||| code) &&& 0x3fffffff)
      = (r.status &&& 0xc0000000) ||| (0x0dead000 ||| code) := by rw [hb]
  have ha : r.status &&& 0xc0000000 < 2 ^ 32 :=
    Nat.and_lt_two_pow _ (by norm_num)
  have hv : (r.status &&& 0xc0000000) |||
      ((0x0dead000 ||| code) &&& 0x3fffffff) < 2 ^ 32 := by
    rw [hv2]
    exact Nat.or_lt_two_pow ha (lt_trans hd (by norm_num))
  have key : ((r.status &&& 0xc0000000) ||| (0x0dead000 ||| code)) &&&
      0x3fffffff = 0x0dead000 ||| code := by
    rw [Nat.and_distrib_right, Nat.and_assoc,
        show (0xc0000000 &&& 0x3fffffff : Nat) = 0 from by decide,
        Nat.and_zero, Nat.zero_or, hb]
  refine ⟨?_, ?_, ?_, ?_⟩
  · show ((r.status &&& 0xc0000000) |||
      ((0x0dead000 ||| code) &&& 0x3fffffff)) % 2 ^ 32 &&& 0x3fffffff = _
    rw [Nat.mod_eq_of_lt hv, hv2, key]
  · rfl
  · show code % 2 ^ 32 = code
    exact Nat.mod_eq_of_lt (lt_trans hc (by norm_num))
  · rfl

/-- C8 witness: the amended register behaviour at a concrete register file
and code 0x123. -/
theorem C8_panic_field_witness :
    (platform_panic ⟨5, 7⟩ 0x123).status &&& 0x3fffffff =
      0x0dead000 ||| 0x123
    ∧ (platform_panic ⟨5, 7⟩ 0x123).errcode = (7 : Nat)
    ∧ (platform_trace_point ⟨5, 7⟩ 0x123).errcode = 0x123
    ∧ (platform_trace_point ⟨5, 7⟩ 0x123).status = (5 : Nat) :=
  C8_panic_field ⟨5, 7⟩ 0x123 (by decide)

/-- C9: module_adapter_new is atomic on failure - it returns NULL exactly
when the config descriptor is NULL, an allocation fails, or
module_adapter_init_data or module_init fails, and in every such case no
allocation remains live; on success the returned device is in
COMP_STATE_READY and exactly the device and module allocations remain. -/
theorem C9_new_atomic (e : NewEnv) :
    ((module_adapter_new e).dev = none ↔
      (e.config_present = false ∨ e.dev_alloc_ok = false ∨
       e.mod_alloc_ok = false ∨ e.init_data_ret ≠ 0 ∨
       e.module_init_ret ≠ 0))
    ∧ ((module_adapter_new e).dev = none →
        (module_adapter_new e).live_allocs = 0)
    ∧ (∀ d, (module_adapter_new e).dev = some d →
        d.state = CompState.ready ∧ (module_adapter_new e).live_allocs = 2) := by
  unfold module_adapter_new
  split_ifs <;> simp_all

/-- C9 witness: a failed module allocation leaks nothing, and a fully
successful construction returns a READY device holding its two
allocations. -/
theorem C9_new_atomic_witness :
    (module_adapter_new ⟨true, true, false, 0, 0⟩).live_allocs = 0
    ∧ (module_adapter_new ⟨true, true, true, 0, 0⟩).live_allocs = 2 :=
  ⟨(C9_new_atomic ⟨true, true, false, 0, 0⟩).2.1 rfl,
   ((C9_new_atomic ⟨true, true, true, 0, 0⟩).2.2 ⟨CompState.ready⟩ rfl).2⟩

/-- C10: the running total behind data_offset_size is one function-local
static shared by every adapter instance: after a first fragment sets it -
on any device - a later non-first fragment on any device gets offset =
that total minus its own num_elems + elems_remaining, and the whole
outcome is independent of which device identifiers were involved. -/
theorem C10_shared_static_offset (s0 a b a2 b2 : Nat) (c1 c2 : CtrlData)
    (h1 : c1.msg_index = 0) (h2 : c2.msg_index ≠ 0)
    (hb : c1.num_elems + c1.elems_remaining < 2 ^ 32)
    (hle : c2.num_elems + c2.elems_remaining ≤
           c1.num_elems + c1.elems_remaining) :
    (sys_get_set_params (sys_get_set_params s0 a c1).1 b c2).2.1 =
      c1.num_elems + c1.elems_remaining -
        (c2.num_elems + c2.elems_remaining)
    ∧ sys_get_set_params (sys_get_set_params s0 a2 c1).1 b2 c2 =
        sys_get_set_params (sys_get_set_params s0 a c1).1 b c2 := by
  refine ⟨?_, rfl⟩
  unfold sys_get_set_params module_adapter_get_set_params
  simp [h1, h2]
  omega

/-- C10 witness: a first fragment of 40 elements sent through device 1
followed by a middle fragment through device 2 yields offset 10, and
routing the same fragments through devices 3 and 4 yields the identical
result. -/
theorem C10_shared_static_witness :
    (sys_get_set_params (sys_get_set_params 0 1 ⟨0, 10, 30⟩).1 2
        ⟨1, 10, 20⟩).2.1 = 10 + 30 - (10 + 20)
    ∧ sys_get_set_params (sys_get_set_params 0 3 ⟨0, 10, 30⟩).1 4
        ⟨1, 10, 20⟩ =
      sys_get_set_params (sys_get_set_params 0 1 ⟨0, 10, 30⟩).1 2
        ⟨1, 10, 20⟩ :=
  C10_shared_static_offset 0 1 2 3 4 ⟨0, 10, 30⟩ ⟨1, 10, 20⟩ rfl
    (by decide) (by decide) (by decide)
